import Mathlib

/-!
Shallow embedding of the "Deploy the Cat" repository:
the client-side Sabotage Scheduler / Outcome Reconciler in
`src/client/src/App.tsx` and the Deployment Narrator server
(the unnamed Express/socket file, `simulateDeployment`).

Conventions of the embedding:
* JavaScript numbers holding integer game statistics are modelled as `Int`
  (so that subtraction behaves as in the source); probabilities, which the
  source manipulates as exact decimal fractions, are modelled as `ℚ`.
* `Math.random()` draws are passed in as explicit parameters (`roll`,
  `shuffled`, the failure-scenario index), so every function is pure.
* The display log (`addLog`) only appends to a display list; it is modelled
  only where a claim talks about logging, as a returned list of messages
  (timestamp prefixes, which come from the wall clock, are omitted).
* Each `setTimeout` body is modelled as its own operation on the state
  (the single-threaded event loop runs callbacks atomically); an execution
  of the app is a list of such operations applied in order.
-/

namespace DeployTheCat

/-- The three pipeline slots, `type ComponentType = 'build' | 'test' | 'deploy'`. -/
inductive ComponentType where
  | build
  | test
  | deploy
deriving DecidableEq

/-- `interface ComponentState { placed: boolean }`. -/
structure ComponentState where
  placed : Bool
deriving DecidableEq

/-- `interface ComponentStates` : one `ComponentState` per slot. -/
structure ComponentStates where
  build : ComponentState
  test : ComponentState
  deploy : ComponentState
deriving DecidableEq

/-- Field lookup `componentStates[t]`. -/
def ComponentStates.get : ComponentStates → ComponentType → ComponentState
  | s, .build => s.build
  | s, .test => s.test
  | s, .deploy => s.deploy

/-- Field update `{ ...prev, [t]: v }`. -/
def ComponentStates.set : ComponentStates → ComponentType → ComponentState → ComponentStates
  | s, .build, v => { s with build := v }
  | s, .test, v => { s with test := v }
  | s, .deploy, v => { s with deploy := v }

/-- `interface GameStats` (fields in source order). -/
structure GameStats where
  score : Int
  deployments : Int
  sabotages : Int
  timeSpent : Int
  failedDeployments : Int
  streak : Int
deriving DecidableEq

/-- The client state relevant to the Scheduler/Reconciler: the pieces of
React state mutated by the operations under specification.  Display-only
state (`logs`, `catAnimation`, countdown fields, debug state) is omitted. -/
structure AppState where
  gameStats : GameStats
  componentStates : ComponentStates
  shakingComponents : Finset ComponentType
  pendingAttacks : Finset ComponentType
  isDeploymentInProgress : Bool
deriving DecidableEq

/-- `Object.entries(componentStates).filter(placed).map(type)` — the filled
slots in insertion order build, test, deploy. -/
def placedList (cs : ComponentStates) : List ComponentType :=
  [ComponentType.build, ComponentType.test, ComponentType.deploy].filter
    (fun t => (cs.get t).placed)

/-- `Object.values(componentStates).every(state => state.placed)`. -/
def allPlaced (cs : ComponentStates) : Bool :=
  [ComponentType.build, ComponentType.test, ComponentType.deploy].all
    (fun t => (cs.get t).placed)

/-- The 5000 ms grace period of `startComponentWarning`'s `setTimeout`. -/
def gracePeriodMs : Nat := 5000

/-- Immediate effect of `startComponentWarning(targetComponent)` (App.tsx
lines 75-79): mark the slot shaking and pending.  The 5000 ms resolution
callback is `resolveWarning` below. -/
def startComponentWarning (targetComponent : ComponentType) (s : AppState) : AppState :=
  { s with
    shakingComponents := insert targetComponent s.shakingComponents,
    pendingAttacks := insert targetComponent s.pendingAttacks }

/-- Body of the 5000 ms `setTimeout` inside `startComponentWarning`
(App.tsx lines 81-109): if the slot is still in `pendingAttacks` and still
placed, knock it off; remove it from `pendingAttacks` and from
`shakingComponents` regardless. -/
def resolveWarning (targetComponent : ComponentType) (s : AppState) : AppState :=
  let s1 :=
    if targetComponent ∈ s.pendingAttacks ∧
        (s.componentStates.get targetComponent).placed = true then
      { s with componentStates := s.componentStates.set targetComponent ⟨false⟩ }
    else s
  { s1 with
    pendingAttacks := s1.pendingAttacks.erase targetComponent,
    shakingComponents := s1.shakingComponents.erase targetComponent }

/-- Target-count choice of `performCatSabotage` (App.tsx lines 117-130),
with the branches in SOURCE order: the `k = 2` branch
(`catAggression >= 3 && aggressionRoll < 0.2 && placed >= 2`) is tested
BEFORE the `k = 3` rampage branch
(`catAggression >= 5 && aggressionRoll < 0.1 && placed >= 3`). -/
def componentsToSabotage (catAggression : Int) (aggressionRoll : ℚ) (numPlaced : Nat) : Nat :=
  if 3 ≤ catAggression ∧ aggressionRoll < 0.2 ∧ 2 ≤ numPlaced then 2
  else if 5 ≤ catAggression ∧ aggressionRoll < 0.1 ∧ 3 ≤ numPlaced then 3
  else 1

/-- Immediate state effect of `performCatSabotage(placedComponents)`
(App.tsx lines 113-153): choose the targets
`shuffledComponents.slice(0, Math.min(componentsToSabotage, placed.length))`
and increment the `sabotages` counter by their number at once.  The
`shuffled` argument stands for the random shuffle
`[...placedComponents].sort(() => Math.random() - 0.5)`; the staggered
warnings it schedules are given by `warningSchedule` and run later as
separate `startComponentWarning` operations. -/
def performCatSabotageImmediate (shuffled : List ComponentType) (aggressionRoll : ℚ)
    (catAggression : Int) (s : AppState) : AppState :=
  let targetsToSabotage :=
    shuffled.take (min (componentsToSabotage catAggression aggressionRoll shuffled.length)
      shuffled.length)
  { s with
    gameStats := { s.gameStats with
      sabotages := s.gameStats.sabotages + targetsToSabotage.length } }

/-- Warning start times scheduled by `performCatSabotage`:
`setTimeout(() => startComponentWarning(target), index * 1500)` for each
selected target (App.tsx lines 137-141). -/
def warningSchedule (shuffled : List ComponentType) (aggressionRoll : ℚ)
    (catAggression : Int) : List (Nat × ComponentType) :=
  let targetsToSabotage :=
    shuffled.take (min (componentsToSabotage catAggression aggressionRoll shuffled.length)
      shuffled.length)
  targetsToSabotage.enum.map (fun p => (p.1 * 1500, p.2))

/-- Body of the attack timer callback (App.tsx lines 204-212 and 333-344):
re-check that some slot is filled and no deployment is in progress, and only
then run the sabotage. -/
def timerFire (shuffled : List ComponentType) (aggressionRoll : ℚ) (catAggression : Int)
    (s : AppState) : AppState :=
  let currentPlacedComponents := placedList s.componentStates
  if 0 < currentPlacedComponents.length ∧ s.isDeploymentInProgress = false then
    performCatSabotageImmediate shuffled aggressionRoll catAggression s
  else s

/-- `handleDrop` (App.tsx lines 372-407): a matching drop marks the slot
placed and removes it from `shakingComponents`; `pendingAttacks` is not
touched.  A mismatched drop only logs. -/
def handleDrop (componentType dropZoneType : ComponentType) (s : AppState) : AppState :=
  if componentType = dropZoneType then
    { s with
      componentStates := s.componentStates.set componentType ⟨true⟩,
      shakingComponents := s.shakingComponents.erase componentType }
  else s

/-- The start request `socket.emit('deploymentStart', ...)` payload fields
that carry game content (the wall-clock timestamp is omitted). -/
structure DeployRequest where
  forceFailure : Bool
  failureChance : ℚ
deriving DecidableEq

/-- Failure-probability formula of `startDeployment` (App.tsx lines 424-433):
`max(0.05, min(0.4, 0.15 + (aggression-1)*0.05 + failedDeployments*0.02
+ shaking*0.1 - deployments*0.01))`. -/
def totalFailureChance (catAggression : Int) (stats : GameStats) (shakingCount : Nat) : ℚ :=
  let baseFailureChance : ℚ := 0.15
  let aggressionPenalty : ℚ := ((catAggression : ℚ) - 1) * 0.05
  let failureStreakPenalty : ℚ := (stats.failedDeployments : ℚ) * 0.02
  let successStreakBonus : ℚ := (stats.deployments : ℚ) * 0.01
  let shakingPenalty : ℚ := (shakingCount : ℚ) * 0.1
  max 0.05 (min 0.4
    (baseFailureChance + aggressionPenalty + failureStreakPenalty + shakingPenalty
      - successStreakBonus))

/-- `startDeployment` (App.tsx lines 409-445).  Rejects (returning the state
unchanged and emitting nothing) unless all slots are placed and no deployment
is in progress; otherwise marks the session live and emits one request whose
`forceFailure` is the pre-decided draw `Math.random() < totalFailureChance`.
The second component is the list of emitted `deploymentStart` requests. -/
def startDeployment (catAggression : Int) (roll : ℚ) (s : AppState) :
    AppState × List DeployRequest :=
  if allPlaced s.componentStates = false then (s, [])
  else if s.isDeploymentInProgress = true then (s, [])
  else
    let chance := totalFailureChance catAggression s.gameStats s.shakingComponents.card
    let willFail := decide (roll < chance)
    ({ s with isDeploymentInProgress := true }, [⟨willFail, chance⟩])

/-- Stats update of the `deploymentComplete` handler (App.tsx lines 255-294). -/
def deploymentCompleteStats (success : Bool) (prev : GameStats) : GameStats :=
  if success then
    let streakBonus : Int := if 3 ≤ prev.streak then 50 else 0
    let totalPoints : Int := 100 + streakBonus
    { prev with
      score := prev.score + totalPoints,
      deployments := prev.deployments + 1,
      streak := prev.streak + 1 }
  else
    { prev with
      failedDeployments := prev.failedDeployments + 1,
      score := max 0 (prev.score - 25),
      streak := 0 }

/-- Delay of the `setTimeout(resetComponents, 2000)` scheduled by the
`deploymentComplete` handler in both branches. -/
def resetDelayMs : Nat := 2000

/-- The `deploymentComplete` handler (App.tsx lines 251-295): clear the
in-progress flag, apply the stats update, and schedule `resetComponents`
after `resetDelayMs`; the second component is that delay. -/
def deploymentCompleteHandler (success : Bool) (s : AppState) : AppState × Nat :=
  ({ s with
      isDeploymentInProgress := false,
      gameStats := deploymentCompleteStats success s.gameStats },
   resetDelayMs)

/-- `resetComponents` (App.tsx lines 447-457): all slots unplaced, both sets
cleared; `gameStats` is not touched.  (Its `setSabotageTimeoutId(null)` is
modelled on `TimerState` below.) -/
def resetComponents (s : AppState) : AppState :=
  { s with
    componentStates := ⟨⟨false⟩, ⟨false⟩, ⟨false⟩⟩,
    shakingComponents := ∅,
    pendingAttacks := ∅ }

/-- Message logged by `emergencyFix` when nothing is shaking. -/
def noFixNeededMsg : String := "❌ No components need emergency fixing!"

/-- `emergencyFix` (App.tsx lines 460-487): rejected when no component is
shaking, or when the score cannot cover `shakingComponents.size * 25`;
otherwise clears `pendingAttacks`, debits the score, and clears
`shakingComponents`.  The second component is the list of logged messages. -/
def emergencyFix (s : AppState) : AppState × List String :=
  if s.shakingComponents.card = 0 then
    (s, [noFixNeededMsg])
  else
    let cost : Int := (s.shakingComponents.card : Int) * 25
    let sc := s.gameStats.score
    if sc < cost then
      (s, [s!"❌ Need {cost} points for emergency fix! (Current: {sc})"])
    else
      let n := s.pendingAttacks.card
      ({ s with
          pendingAttacks := ∅,
          gameStats := { s.gameStats with score := s.gameStats.score - cost },
          shakingComponents := ∅ },
       [s!"🔧 Emergency fix applied! -{cost} points. Cancelled {n} pending attacks!"])

/-- One event-loop callback of the client.  `drop`, `deploy`, `reset`, `fix`
are user-initiated handlers; `warn` is a staggered warning start scheduled
by `performCatSabotage`; `resolve` is a grace-period expiry; `fire` is an
attack-timer expiry; `complete` is the socket `deploymentComplete` handler.
Random draws (`shuffled`, `roll`) and the time-driven `catAggression` are
carried by the operation; this over-approximates the set of executions of
the source, so invariants proved over it hold for every real execution. -/
inductive Op where
  | drop (componentType dropZoneType : ComponentType)
  | warn (t : ComponentType)
  | resolve (t : ComponentType)
  | fire (shuffled : List ComponentType) (roll : ℚ) (agg : Int)
  | deploy (agg : Int) (roll : ℚ)
  | complete (success : Bool)
  | reset
  | fix

/-- Apply one callback to the client state (emitted requests and log
messages are dropped here; theorems about them use the functions directly). -/
def applyOp (op : Op) (s : AppState) : AppState :=
  match op with
  | .drop c z => handleDrop c z s
  | .warn t => startComponentWarning t s
  | .resolve t => resolveWarning t s
  | .fire sh r a => timerFire sh r a s
  | .deploy a r => (startDeployment a r s).1
  | .complete b => (deploymentCompleteHandler b s).1
  | .reset => resetComponents s
  | .fix => (emergencyFix s).1

/-- Run a list of callbacks in order. -/
def applyOps (ops : List Op) (s : AppState) : AppState :=
  ops.foldl (fun st op => applyOp op st) s

/-- The initial React state: zero stats, nothing placed, nothing pending,
no deployment in progress. -/
def initState : AppState :=
  { gameStats := ⟨0, 0, 0, 0, 0, 0⟩,
    componentStates := ⟨⟨false⟩, ⟨false⟩, ⟨false⟩⟩,
    shakingComponents := ∅,
    pendingAttacks := ∅,
    isDeploymentInProgress := false }

/-- A state the client can be in: reached from `initState` by some sequence
of callbacks. -/
def Reachable (s : AppState) : Prop :=
  ∃ ops : List Op, applyOps ops initState = s

/-!  Attack-timer bookkeeping.  The source keeps one React state cell
`sabotageTimeoutId : number | null` for the handle of the next-attack
`setTimeout`.  `liveTimers` records which created timers have neither fired
nor been passed to `clearTimeout`; browser timer ids start at 1. -/

/-- Timer-handle state: the stored id cell and the set of timers that are
still live (created, not cleared, not yet fired). -/
structure TimerState where
  liveTimers : List Nat
  sabotageTimeoutId : Option Nat
  nextId : Nat
deriving DecidableEq

/-- Timer state on page load: no timer, empty cell. -/
def initTimerState : TimerState :=
  { liveTimers := [], sabotageTimeoutId := none, nextId := 1 }

/-- The scheduling effect at App.tsx lines 189-219: when at least one slot is
placed, no deployment is in progress and `sabotageTimeoutId` is null, create
a new `setTimeout` and store its id.  No `clearTimeout` is issued here. -/
def effectScheduleFirstAttack (placedCount : Nat) (isDeploymentInProgress : Bool)
    (ts : TimerState) : TimerState :=
  if 0 < placedCount ∧ isDeploymentInProgress = false ∧ ts.sabotageTimeoutId = none then
    { liveTimers := ts.liveTimers ++ [ts.nextId],
      sabotageTimeoutId := some ts.nextId,
      nextId := ts.nextId + 1 }
  else ts

/-- The timer effect of `resetComponents` (App.tsx line 455): it runs
`setSabotageTimeoutId(null)` only — no `clearTimeout` — so whatever timer the
cell pointed at stays live. -/
def resetComponentsTimer (ts : TimerState) : TimerState :=
  { ts with sabotageTimeoutId := none }

/-!  The Deployment Narrator (server file, `simulateDeployment`). -/

/-- One scripted log line: `{ message, level }` (the per-emission timestamp
and step counters are attached when the line is sent). -/
structure LogStep where
  message : String
  level : String
deriving DecidableEq

/-- The 9-line success script `successSteps`. -/
def successSteps : List LogStep :=
  [⟨"🚀 Starting deployment pipeline...", "info"⟩,
   ⟨"📦 Installing dependencies...", "info"⟩,
   ⟨"✅ Dependencies installed successfully", "success"⟩,
   ⟨"🔨 Building application...", "info"⟩,
   ⟨"✅ Build completed successfully", "success"⟩,
   ⟨"🧪 Running unit tests...", "info"⟩,
   ⟨"✅ All tests passed (247/247)", "success"⟩,
   ⟨"🚀 Deploying to production...", "info"⟩,
   ⟨"✅ Deployment successful!", "success"⟩]

/-- One entry of `failureScenarios`: the step at which the pipeline fails and
the script to play. -/
structure FailureScenario where
  failAt : Nat
  steps : List LogStep
deriving DecidableEq

/-- `failureScenarios[0]`: dependency conflict, 4 lines. -/
def failureScenario0 : FailureScenario :=
  { failAt := 3,
    steps :=
      [⟨"🚀 Starting deployment pipeline...", "info"⟩,
       ⟨"📦 Installing dependencies...", "info"⟩,
       ⟨"❌ Dependency conflict detected!", "error"⟩,
       ⟨"💥 Build failed - incompatible package versions", "error"⟩] }

/-- `failureScenarios[1]`: failing tests, 8 lines. -/
def failureScenario1 : FailureScenario :=
  { failAt := 6,
    steps :=
      [⟨"🚀 Starting deployment pipeline...", "info"⟩,
       ⟨"📦 Installing dependencies...", "info"⟩,
       ⟨"✅ Dependencies installed successfully", "success"⟩,
       ⟨"🔨 Building application...", "info"⟩,
       ⟨"✅ Build completed successfully", "success"⟩,
       ⟨"🧪 Running unit tests...", "info"⟩,
       ⟨"❌ Tests failed: 12 failures, 235 passed", "error"⟩,
       ⟨"💥 Deployment aborted due to test failures", "error"⟩] }

/-- `failureScenarios[2]`: production timeout with rollback, 11 lines. -/
def failureScenario2 : FailureScenario :=
  { failAt := 8,
    steps :=
      [⟨"🚀 Starting deployment pipeline...", "info"⟩,
       ⟨"📦 Installing dependencies...", "info"⟩,
       ⟨"✅ Dependencies installed successfully", "success"⟩,
       ⟨"🔨 Building application...", "info"⟩,
       ⟨"✅ Build completed successfully", "success"⟩,
       ⟨"🧪 Running unit tests...", "info"⟩,
       ⟨"✅ All tests passed (247/247)", "success"⟩,
       ⟨"🚀 Deploying to production...", "info"⟩,
       ⟨"❌ Deployment failed - server timeout", "error"⟩,
       ⟨"🔄 Rolling back to previous version...", "warning"⟩,
       ⟨"✅ Rollback completed", "info"⟩] }

/-- The `failureScenarios` table. -/
def failureScenarios : List FailureScenario :=
  [failureScenario0, failureScenario1, failureScenario2]

/-- The terminal `deploymentComplete` payload (wall-clock timestamp omitted). -/
structure CompletionEvent where
  success : Bool
  totalSteps : Nat
  duration : Nat
deriving DecidableEq

/-- One event emitted to the client over the socket during a simulated
deployment. -/
inductive ServerEvent where
  | log (step : LogStep)
  | complete (c : CompletionEvent)
deriving DecidableEq

/-- `simulateDeployment(socket, shouldFail)`: pick the success script, or the
failure scenario indexed by `Math.floor(Math.random() * 3)` (the `scenario`
argument); emit every script line as a `deploymentLog`, then exactly one
`deploymentComplete` with `success = willSucceed` (`true` unless
`shouldFail`), `totalSteps = script length` and
`duration = length * 800 + 500`. -/
def simulateDeployment (shouldFail : Bool) (scenario : Fin failureScenarios.length) :
    List ServerEvent :=
  let stepsToExecute :=
    if shouldFail then (failureScenarios.get scenario).steps else successSteps
  let willSucceed := !shouldFail
  stepsToExecute.map ServerEvent.log ++
    [ServerEvent.complete
      ⟨willSucceed, stepsToExecute.length, stepsToExecute.length * 800 + 500⟩]

/-- The `deploymentLog` lines of an event sequence. -/
def logsOf (evs : List ServerEvent) : List LogStep :=
  evs.filterMap (fun e => match e with | .log l => some l | .complete _ => none)

/-- The `deploymentComplete` events of an event sequence. -/
def completionsOf (evs : List ServerEvent) : List CompletionEvent :=
  evs.filterMap (fun e => match e with | .complete c => some c | .log _ => none)

/-!  Invariant machinery over reachable states. -/

/-- A predicate preserved by every callback holds after any callback list. -/
theorem applyOps_invariant {P : AppState → Prop}
    (hstep : ∀ op s, P s → P (applyOp op s)) :
    ∀ (ops : List Op) (s : AppState), P s → P (applyOps ops s) := by
  intro ops
  induction ops with
  | nil => intro s hs; exact hs
  | cons op rest ih => intro s hs; exact ih (applyOp op s) (hstep op s hs)

/-- A predicate true initially and preserved by every callback holds in every
reachable state. -/
theorem reachable_invariant {P : AppState → Prop} (h0 : P initState)
    (hstep : ∀ op s, P s → P (applyOp op s)) :
    ∀ s, Reachable s → P s := by
  rintro s ⟨ops, rfl⟩
  exact applyOps_invariant hstep ops initState h0

/-- Every callback keeps `shakingComponents ⊆ pendingAttacks`: warnings add a
slot to both sets, resolutions and resets remove from both, and `handleDrop`
only shrinks `shakingComponents`. -/
theorem shakingSubsetPending_step (op : Op) (s : AppState)
    (h : s.shakingComponents ⊆ s.pendingAttacks) :
    (applyOp op s).shakingComponents ⊆ (applyOp op s).pendingAttacks := by
  cases op with
  | drop c z =>
    simp only [applyOp, handleDrop]
    split
    · exact Finset.Subset.trans (Finset.erase_subset _ _) h
    · exact h
  | warn t =>
    simp only [applyOp, startComponentWarning]
    exact Finset.insert_subset_insert _ h
  | resolve t =>
    simp only [applyOp, resolveWarning]
    split
    · exact Finset.erase_subset_erase _ h
    · exact Finset.erase_subset_erase _ h
  | fire sh r a =>
    simp only [applyOp, timerFire, performCatSabotageImmediate]
    split
    · exact h
    · exact h
  | deploy a r =>
    simp only [applyOp, startDeployment]
    split
    · exact h
    · split
      · exact h
      · exact h
  | complete b =>
    exact h
  | reset =>
    exact Finset.Subset.refl ∅
  | fix =>
    simp only [applyOp, emergencyFix]
    split
    · exact h
    · split
      · exact h
      · exact Finset.Subset.refl ∅

/-- In every reachable state, every shaking slot is also a pending-attack
slot (`ShakingSet ⊆ PendingAttack`). -/
theorem shaking_subset_pending (s : AppState) (h : Reachable s) :
    s.shakingComponents ⊆ s.pendingAttacks :=
  reachable_invariant (Finset.Subset.refl ∅) shakingSubsetPending_step s h

/-- Non-negativity of the score and of the four counters named by the spec. -/
def StatsNonneg (g : GameStats) : Prop :=
  0 ≤ g.score ∧ 0 ≤ g.deployments ∧ 0 ≤ g.sabotages ∧
    0 ≤ g.failedDeployments ∧ 0 ≤ g.streak

/-- Both outcome branches of the `deploymentComplete` handler preserve
non-negativity: success only adds, failure floors the score at 0. -/
theorem deploymentCompleteStats_nonneg (b : Bool) (g : GameStats)
    (h : StatsNonneg g) : StatsNonneg (deploymentCompleteStats b g) := by
  obtain ⟨h1, h2, h3, h4, h5⟩ := h
  cases b with
  | true =>
    refine ⟨?_, ?_, h3, h4, ?_⟩
    · show 0 ≤ g.score + (100 + if 3 ≤ g.streak then (50 : Int) else 0)
      split <;> omega
    · show 0 ≤ g.deployments + 1
      omega
    · show 0 ≤ g.streak + 1
      omega
  | false =>
    refine ⟨?_, h2, h3, ?_, le_refl 0⟩
    · exact le_max_left 0 _
    · show 0 ≤ g.failedDeployments + 1
      omega

/-- `emergencyFix` preserves non-negativity: the debit only happens after the
`score < cost` guard passes. -/
theorem emergencyFix_nonneg (s : AppState) (h : StatsNonneg s.gameStats) :
    StatsNonneg ((emergencyFix s).1).gameStats := by
  obtain ⟨h1, h2, h3, h4, h5⟩ := h
  simp only [emergencyFix]
  split
  · exact ⟨h1, h2, h3, h4, h5⟩
  · split
    · exact ⟨h1, h2, h3, h4, h5⟩
    · rename_i hcost
      refine ⟨?_, h2, h3, h4, h5⟩
      show 0 ≤ s.gameStats.score - (s.shakingComponents.card : Int) * 25
      omega

/-- Every callback preserves `StatsNonneg`. -/
theorem statsNonneg_step (op : Op) (s : AppState) (h : StatsNonneg s.gameStats) :
    StatsNonneg (applyOp op s).gameStats := by
  obtain ⟨h1, h2, h3, h4, h5⟩ := h
  cases op with
  | drop c z =>
    simp only [applyOp, handleDrop]
    split
    · exact ⟨h1, h2, h3, h4, h5⟩
    · exact ⟨h1, h2, h3, h4, h5⟩
  | warn t => exact ⟨h1, h2, h3, h4, h5⟩
  | resolve t =>
    simp only [applyOp, resolveWarning]
    split
    · exact ⟨h1, h2, h3, h4, h5⟩
    · exact ⟨h1, h2, h3, h4, h5⟩
  | fire sh r a =>
    simp only [applyOp, timerFire, performCatSabotageImmediate]
    split
    · refine ⟨h1, h2, ?_, h4, h5⟩
      show 0 ≤ s.gameStats.sabotages + (_ : Int)
      omega
    · exact ⟨h1, h2, h3, h4, h5⟩
  | deploy a r =>
    simp only [applyOp, startDeployment]
    split
    · exact ⟨h1, h2, h3, h4, h5⟩
    · split
      · exact ⟨h1, h2, h3, h4, h5⟩
      · exact ⟨h1, h2, h3, h4, h5⟩
  | complete b => exact deploymentCompleteStats_nonneg b s.gameStats ⟨h1, h2, h3, h4, h5⟩
  | reset => exact ⟨h1, h2, h3, h4, h5⟩
  | fix => exact emergencyFix_nonneg s ⟨h1, h2, h3, h4, h5⟩

/-- C7: in every reachable client state — i.e. after any sequence of sabotage
launches, warnings, resolutions, drops, emergency fixes, deployment
completions and resets — the score is non-negative and the
`deployments`, `sabotages`, `failedDeployments` and `streak` counters are
non-negative. -/
theorem c7_stats_nonneg (s : AppState) (h : Reachable s) :
    StatsNonneg s.gameStats :=
  reachable_invariant ⟨le_refl 0, le_refl 0, le_refl 0, le_refl 0, le_refl 0⟩
    statsNonneg_step s h

/-- Witness for C7 at a concrete reachable state: place BUILD, warn it, then
call the emergency fix (which is rejected for lack of points). -/
theorem c7_witness :
    StatsNonneg (applyOps [Op.drop .build .build, Op.warn .build, Op.fix]
      initState).gameStats :=
  c7_stats_nonneg _ ⟨[Op.drop .build .build, Op.warn .build, Op.fix], rfl⟩

/-- C8: in any reachable state whose `pendingAttacks` set is empty, calling
`emergencyFix` is a no-op — the state (score, sets, slots, session flag) is
returned unchanged and only the rejection message is logged.  This holds
because `shakingComponents ⊆ pendingAttacks` in every reachable state, so an
empty `pendingAttacks` forces the `shakingComponents.size === 0` guard to
reject the call. -/
theorem c8_emergencyFix_noop_when_no_pending (s : AppState) (hr : Reachable s)
    (hp : s.pendingAttacks = ∅) :
    emergencyFix s = (s, [noFixNeededMsg]) := by
  have hsub := shaking_subset_pending s hr
  rw [hp] at hsub
  have hsh : s.shakingComponents = ∅ := Finset.subset_empty.mp hsub
  simp [emergencyFix, hsh]

/-- Witness for C8 at the initial state, where nothing is pending. -/
theorem c8_witness : emergencyFix initState = (initState, [noFixNeededMsg]) :=
  c8_emergencyFix_noop_when_no_pending initState ⟨[], rfl⟩ rfl

/-- C9: if the emergency fix is accepted (some slot is shaking and the score
covers the cost) for a state in which slot `t` has a pending attack, then the
later grace-period resolution of that attack finds `pendingAttacks` empty and
leaves every slot's placed state unchanged — the slot is never knocked off —
and only clears the slot's shaking/pending marks. -/
theorem c9_cancelled_attack_never_knocks_off (s : AppState) (t : ComponentType)
    (ht : t ∈ s.pendingAttacks)
    (hsh : s.shakingComponents.card ≠ 0)
    (hsc : (s.shakingComponents.card : Int) * 25 ≤ s.gameStats.score) :
    (resolveWarning t (emergencyFix s).1).componentStates = s.componentStates ∧
    t ∉ (resolveWarning t (emergencyFix s).1).shakingComponents ∧
    t ∉ (resolveWarning t (emergencyFix s).1).pendingAttacks := by
  have hfix : (emergencyFix s).1 =
      { s with
        pendingAttacks := ∅,
        gameStats := { s.gameStats with
          score := s.gameStats.score - (s.shakingComponents.card : Int) * 25 },
        shakingComponents := ∅ } := by
    simp only [emergencyFix, if_neg hsh, if_neg (not_lt.mpr hsc)]
  rw [hfix]
  unfold resolveWarning
  simp

/-- Witness for C9: BUILD is placed, warned (shaking and pending) and the
score is 100, so the fix costs 25 and is accepted; the resolution then leaves
BUILD placed. -/
theorem c9_witness :
    (resolveWarning .build (emergencyFix
      { gameStats := ⟨100, 0, 0, 0, 0, 0⟩,
        componentStates := ⟨⟨true⟩, ⟨false⟩, ⟨false⟩⟩,
        shakingComponents := {ComponentType.build},
        pendingAttacks := {ComponentType.build},
        isDeploymentInProgress := false }).1).componentStates =
      ⟨⟨true⟩, ⟨false⟩, ⟨false⟩⟩ :=
  (c9_cancelled_attack_never_knocks_off _ .build (by decide) (by decide)
    (by decide)).1

/-- The client state after placing BUILD, warning BUILD, and re-dropping
BUILD into its slot while it is being warned. -/
def redropTraceState : AppState :=
  applyOps [Op.drop .build .build, Op.warn .build, Op.drop .build .build] initState

/-- C10: a matching re-drop never touches `pendingAttacks` (it only removes
the slot from `shakingComponents`); consequently, after warning BUILD and
re-dropping it, the client is in a reachable state with an empty
`ShakingSet` and a non-empty `PendingAttack` set, and in that state the
emergency fix is rejected with the "nothing to fix" message even though an
attack is still pending. -/
theorem c10_redrop_leaves_pending :
    (∀ (s : AppState) (c : ComponentType),
      (handleDrop c c s).pendingAttacks = s.pendingAttacks ∧
      (handleDrop c c s).shakingComponents = s.shakingComponents.erase c) ∧
    Reachable redropTraceState ∧
    redropTraceState.shakingComponents = ∅ ∧
    redropTraceState.pendingAttacks = {ComponentType.build} ∧
    emergencyFix redropTraceState = (redropTraceState, [noFixNeededMsg]) := by
  refine ⟨?_, ⟨_, rfl⟩, ?_, ?_, ?_⟩
  · intro s c
    simp only [handleDrop, if_pos rfl]
    exact ⟨rfl, rfl⟩
  · decide
  · decide
  · decide

/-- C5: the `deploymentComplete` handler adds `100 + (50 iff streak ≥ 3)` to
the score with a success, bumps `deployments` and `streak`; with a failure it
bumps `failedDeployments`, floors the score at `max 0 (score - 25)` and zeroes
the streak.  In both branches it schedules `resetComponents` after a fixed
2000 ms, and `resetComponents` unplaces all three slots and clears
`pendingAttacks`/`shakingComponents` without touching `gameStats`. -/
theorem c5_completion_scoring_and_reset (stats : GameStats) (s : AppState) (b : Bool) :
    (deploymentCompleteStats true stats).score
        = stats.score + (100 + if 3 ≤ stats.streak then (50 : Int) else 0) ∧
    (deploymentCompleteStats true stats).deployments = stats.deployments + 1 ∧
    (deploymentCompleteStats true stats).streak = stats.streak + 1 ∧
    (deploymentCompleteStats false stats).failedDeployments
        = stats.failedDeployments + 1 ∧
    (deploymentCompleteStats false stats).score = max 0 (stats.score - 25) ∧
    (deploymentCompleteStats false stats).streak = 0 ∧
    (deploymentCompleteHandler b s).2 = 2000 ∧
    (resetComponents s).componentStates = ⟨⟨false⟩, ⟨false⟩, ⟨false⟩⟩ ∧
    (resetComponents s).pendingAttacks = ∅ ∧
    (resetComponents s).shakingComponents = ∅ ∧
    (resetComponents s).gameStats = s.gameStats :=
  ⟨rfl, rfl, rfl, rfl, rfl, rfl, rfl, rfl, rfl, rfl, rfl⟩

/-- C4: `startDeployment` is rejected — nothing emitted, no state change —
unless all three slots are placed and no deployment is in progress; when both
preconditions hold it only flips the session flag and emits exactly one
request carrying the pre-decided `forceFailure = (roll < chance)` and the
failure chance, which is always within `[0.05, 0.4]`. -/
theorem c4_startDeployment_guards (s : AppState) (agg : Int) (roll : ℚ) :
    (¬(allPlaced s.componentStates = true ∧ s.isDeploymentInProgress = false) →
      startDeployment agg roll s = (s, [])) ∧
    (allPlaced s.componentStates = true → s.isDeploymentInProgress = false →
      (startDeployment agg roll s).1 = { s with isDeploymentInProgress := true } ∧
      (startDeployment agg roll s).2 =
        [⟨decide (roll < totalFailureChance agg s.gameStats s.shakingComponents.card),
          totalFailureChance agg s.gameStats s.shakingComponents.card⟩] ∧
      0.05 ≤ totalFailureChance agg s.gameStats s.shakingComponents.card ∧
      totalFailureChance agg s.gameStats s.shakingComponents.card ≤ 0.4) := by
  constructor
  · intro h
    rcases Bool.eq_false_or_eq_true (allPlaced s.componentStates) with ht | hf
    · rcases Bool.eq_false_or_eq_true s.isDeploymentInProgress with hpt | hpf
      · simp [startDeployment, ht, hpt]
      · exact absurd ⟨ht, hpf⟩ h
    · simp [startDeployment, hf]
  · intro hall hprog
    refine ⟨?_, ?_, ?_, ?_⟩
    · simp [startDeployment, hall, hprog]
    · simp [startDeployment, hall, hprog]
    · show (0.05 : ℚ) ≤ max 0.05 (min 0.4 _)
      exact le_max_left _ _
    · show max (0.05 : ℚ) (min 0.4 _) ≤ 0.4
      exact max_le (by norm_num) (min_le_left _ _)

/-- A state with all three slots placed, no warning pending and no session
live: deployment is permitted here. -/
def readyState : AppState :=
  { gameStats := ⟨0, 0, 0, 0, 0, 0⟩,
    componentStates := ⟨⟨true⟩, ⟨true⟩, ⟨true⟩⟩,
    shakingComponents := ∅,
    pendingAttacks := ∅,
    isDeploymentInProgress := false }

/-- Witness for C4: with everything placed and no session live, the request
goes out and only the session flag changes; from the initial state (nothing
placed) the call is rejected outright. -/
theorem c4_witness :
    (startDeployment 1 1 readyState).1 = { readyState with isDeploymentInProgress := true } ∧
    (0.05 : ℚ) ≤ totalFailureChance 1 readyState.gameStats readyState.shakingComponents.card ∧
    startDeployment 1 1 initState = (initState, []) := by
  have h := (c4_startDeployment_guards readyState 1 1).2 rfl rfl
  have hrej := (c4_startDeployment_guards initState 1 1).1 (by decide)
  exact ⟨h.1, h.2.2.1, hrej⟩

/-- C2 (code bug): `performCatSabotage` tests the two-target branch BEFORE
the rampage branch, and the rampage condition (aggression ≥ 5, roll < 0.1,
≥ 3 placed) implies the two-target condition (aggression ≥ 3, roll < 0.2,
≥ 2 placed), so the rampage branch is unreachable.  At the claim's scenario
(aggression 5, roll 1/20 < 0.1, all 3 placed) the code picks k = 2, not 3:
only two slots get staggered warnings (at 0 ms and 1500 ms) and `sabotages`
rises by 2, not 3.  In fact k = 3 is impossible for every input. -/
theorem c2_rampage_branch_unreachable :
    componentsToSabotage 5 (1/20) 3 = 2 ∧
    warningSchedule [ComponentType.build, .test, .deploy] (1/20) 5
      = [(0, ComponentType.build), (1500, ComponentType.test)] ∧
    (performCatSabotageImmediate [ComponentType.build, .test, .deploy] (1/20) 5
        readyState).gameStats.sabotages = readyState.gameStats.sabotages + 2 ∧
    ∀ (agg : Int) (roll : ℚ) (n : Nat),
      componentsToSabotage agg roll n = 1 ∨ componentsToSabotage agg roll n = 2 := by
  have hk : componentsToSabotage 5 (1/20)
      (List.length [ComponentType.build, .test, .deploy]) = 2 := by
    norm_num [componentsToSabotage]
  refine ⟨hk, ?_, ?_, ?_⟩
  · simp only [warningSchedule, hk]
    rfl
  · simp only [performCatSabotageImmediate, hk]
    rfl
  · intro agg roll n
    unfold componentsToSabotage
    split_ifs with hA hB
    · exact Or.inr rfl
    · exfalso
      obtain ⟨hb1, hb2, hb3⟩ := hB
      exact hA ⟨by omega, by linarith, by omega⟩
    · exact Or.inl rfl

/-- C3 (code bug): `resetComponents` runs `setSabotageTimeoutId(null)` with
no `clearTimeout`, so the outstanding attack timer stays live while the id
cell is emptied; the scheduling effect (lines 189-219) then sees a null id
and creates a second timer — two concurrently live attack timers, which the
"at most one outstanding timer" design rule forbids. -/
theorem c3_reset_leaves_timer_live :
    (effectScheduleFirstAttack 1 false initTimerState).liveTimers = [1] ∧
    (resetComponentsTimer (effectScheduleFirstAttack 1 false initTimerState)).liveTimers
      = [1] ∧
    (resetComponentsTimer
        (effectScheduleFirstAttack 1 false initTimerState)).sabotageTimeoutId = none ∧
    (effectScheduleFirstAttack 1 false
      (resetComponentsTimer
        (effectScheduleFirstAttack 1 false initTimerState))).liveTimers = [1, 2] := by
  refine ⟨?_, ?_, ?_, ?_⟩ <;> decide

/-- C6: the Narrator plays the 9-line success script and completes with
`success = true` when `forceFailure` is false, and plays one of exactly three
failure scripts — of lengths 4, 8 and 11 — and completes with
`success = false` when `forceFailure` is true; each request gets exactly one
completion event, whose success flag is the negation of `shouldFail`. -/
theorem c6_narrator_scripts_and_completion :
    List.map (fun fs => fs.steps.length) failureScenarios = [4, 8, 11] ∧
    successSteps.length = 9 ∧
    ∀ (shouldFail : Bool) (scenario : Fin failureScenarios.length),
      (completionsOf (simulateDeployment shouldFail scenario)).map CompletionEvent.success
        = [!shouldFail] ∧
      (logsOf (simulateDeployment shouldFail scenario)).length
        = if shouldFail then (failureScenarios.get scenario).steps.length else 9 := by
  refine ⟨by decide, by decide, by decide⟩

/-- The callback sequence that fills all three slots, lets an attack warn
BUILD, and then starts a deployment (permitted: everything is placed and no
session is live yet).  The BUILD warning's 5-second grace timer is still
outstanding when the session goes live. -/
def liveSessionTrace : List Op :=
  [Op.drop .build .build, Op.drop .test .test, Op.drop .deploy .deploy,
   Op.warn .build, Op.deploy 1 1]

/-- C1 fails on the code: after `liveSessionTrace` the session is live and
BUILD is placed, yet the pending attack's grace-period resolution — which
never consults `isDeploymentInProgress` — still knocks BUILD off while the
session is live. -/
theorem c1_live_session_slot_change_counterexample :
    (applyOps liveSessionTrace initState).isDeploymentInProgress = true ∧
    ((applyOps liveSessionTrace initState).componentStates.get .build).placed = true ∧
    (applyOps (liveSessionTrace ++ [Op.resolve .build])
        initState).isDeploymentInProgress = true ∧
    ((applyOps (liveSessionTrace ++ [Op.resolve .build])
        initState).componentStates.get .build).placed = false := by
  refine ⟨?_, ?_, ?_, ?_⟩ <;> decide

/-- C1 amended: while a session is live the attack-timer callback is
suppressed (it re-checks `isDeploymentInProgress` and launches nothing), but
a grace-period resolution of an attack that is still pending does knock a
placed slot off regardless of the session flag — so slot state can change
while a session is live. -/
theorem c1_amended_session_suppresses_scheduler_not_resolution
    (s : AppState) (t : ComponentType) (shuffled : List ComponentType)
    (roll : ℚ) (agg : Int) :
    (s.isDeploymentInProgress = true → timerFire shuffled roll agg s = s) ∧
    (t ∈ s.pendingAttacks → (s.componentStates.get t).placed = true →
      ((resolveWarning t s).componentStates.get t).placed = false) := by
  constructor
  · intro hp
    have hneg : ¬(0 < (placedList s.componentStates).length ∧
        s.isDeploymentInProgress = false) := by
      rintro ⟨-, hf⟩
      rw [hp] at hf
      exact absurd hf (by decide)
    simp only [timerFire]
    rw [if_neg hneg]
  · intro hmem hpl
    simp only [resolveWarning]
    rw [if_pos ⟨hmem, hpl⟩]
    cases t <;> rfl

/-- Witness for the amended C1, at the live-session state of the
counterexample trace. -/
theorem c1_amended_witness :
    timerFire [] 0 1 (applyOps liveSessionTrace initState)
      = applyOps liveSessionTrace initState ∧
    ((resolveWarning .build
        (applyOps liveSessionTrace initState)).componentStates.get .build).placed
      = false := by
  have h := c1_amended_session_suppresses_scheduler_not_resolution
    (applyOps liveSessionTrace initState) .build [] 0 1
  exact ⟨h.1 (by decide), h.2 (by decide) (by decide)⟩

end DeployTheCat
